import Mathlib

/-!
Verification of the qa-mcp-server browser-automation tool server.

The development shallowly embeds the session lifecycle manager
(initBrowser), the network capture buffer (the response listener and the
networkLogs array), and the tool handlers (visit_page, list_elements,
click_element, check_network_request) as pure Lean functions.  Browser-side
effects (launching, opening pages, navigation outcomes, response-body
decoding) are supplied by explicit environment records, and handles are
modelled as records carrying a numeric identity plus the observable flags
the code queries (isConnected, isClosed).
-/

/-- JavaScript string `includes`: `jsIncludes s k` is true when `k` occurs
as a contiguous substring of `s` (case-sensitive). -/
def jsIncludes (s k : String) : Bool :=
  s.toList.tails.any fun t => k.toList.isPrefixOf t

/-- Body of a captured network response: the decoded JSON value (rendered
abstractly as a string), the raw response text, or null when both decode
attempts failed. -/
inductive Body where
  | jsonVal (v : String)
  | textVal (s : String)
  | null
deriving DecidableEq, Repr

/-- One entry of the networkLogs array:
`{ url, status, body, time: new Date().toISOString() }`. -/
structure NetworkLogEntry where
  url : String
  status : Nat
  body : Body
  time : String
deriving DecidableEq, Repr

/-- Result of the check_network_request tool: either the serialization of a
list of entries (JSON.stringify of that list) or a plain-text message. -/
inductive CheckResult where
  | logDump (entries : List NetworkLogEntry)
  | notFound (message : String)
deriving DecidableEq, Repr

/-- The check_network_request tool handler:
filters the log by url-substring and, when any entry matches, serializes the
whole networkLogs array; otherwise answers with the not-found message. -/
def check_network_request (logs : List NetworkLogEntry) (keyword : String) :
    CheckResult :=
  if (logs.filter fun log => jsIncludes log.url keyword).length ≠ 0 then
    CheckResult.logDump logs
  else
    CheckResult.notFound ("No request found for " ++ keyword)

/-- A browser-process handle: a numeric identity plus the flag that
isConnected() reports. -/
structure Browser where
  id : Nat
  connected : Bool
deriving DecidableEq, Repr

/-- A page handle: a numeric identity, the flag that isClosed() reports, and
whether the response listener was attached at creation. -/
structure Page where
  id : Nat
  closed : Bool
  hasResponseListener : Bool
deriving DecidableEq, Repr

/-- The ambient module state: the browser and page variables (null modelled
as none) and the networkLogs array. -/
structure SessionState where
  browser : Option Browser
  page : Option Page
  logs : List NetworkLogEntry
deriving DecidableEq, Repr

/-- The step of initBrowser at which an exception was raised. -/
inductive BrowserError where
  | closeErr
  | launchErr
  | newPageErr
deriving DecidableEq, Repr

/-- Outcomes the browser driver supplies to one initBrowser call: whether
browser.close() raises, whether puppeteer.launch succeeds, and whether
browser.newPage() succeeds. -/
structure InitEnv where
  closeFails : Bool
  launchOk : Bool
  newPageOk : Bool
deriving DecidableEq, Repr

/-- Closing or crashing a browser closes the pages belonging to it; this is
the driver behaviour the code relies on when it later queries isClosed(). -/
def markPageClosed : Option Page → Option Page
  | none => none
  | some p => some { p with closed := true }

/-- Second half of initBrowser: if the page is absent or closed, open a new
page (fresh identity taken from the counter) and attach the response
listener to it exactly once; otherwise keep the current page.  A newPage
failure lands in the catch block: both references cleared, error rethrown. -/
def newPageStep (st : SessionState) (n : Nat) (env : InitEnv) :
    SessionState × Nat × Except BrowserError Page :=
  if env.newPageOk then
    ({ st with page := some ⟨n, false, true⟩ }, n + 1,
      Except.ok ⟨n, false, true⟩)
  else
    ({ browser := none, page := none, logs := st.logs }, n,
      Except.error BrowserError.newPageErr)

/-- The page check of initBrowser: reuse the page unless absent or closed. -/
def initPage (st : SessionState) (n : Nat) (env : InitEnv) :
    SessionState × Nat × Except BrowserError Page :=
  match st.page with
  | some p => if p.closed then newPageStep st n env else (st, n, Except.ok p)
  | none => newPageStep st n env

/-- The initBrowser function.  When the browser is absent or reports
disconnected, it first awaits browser.close() on any existing handle (an
exception there reaches the catch block: both references cleared, error
rethrown) and then relaunches with the fixed configuration; afterwards it
runs the page check.  Any failure clears both references and rethrows. -/
def initBrowser (st : SessionState) (n : Nat) (env : InitEnv) :
    SessionState × Nat × Except BrowserError Page :=
  match st.browser with
  | some b =>
    if b.connected then
      initPage st n env
    else if env.closeFails then
      ({ browser := none, page := none, logs := st.logs }, n,
        Except.error BrowserError.closeErr)
    else if env.launchOk then
      initPage
        { browser := some ⟨n, true⟩, page := markPageClosed st.page,
          logs := st.logs } (n + 1) env
    else
      ({ browser := none, page := none, logs := st.logs }, n,
        Except.error BrowserError.launchErr)
  | none =>
    if env.launchOk then
      initPage
        { browser := some ⟨n, true⟩, page := st.page, logs := st.logs }
        (n + 1) env
    else
      ({ browser := none, page := none, logs := st.logs }, n,
        Except.error BrowserError.launchErr)

/-- JavaScript string startsWith. -/
def jsStartsWith (s pre : String) : Bool :=
  pre.toList.isPrefixOf s.toList

/-- Outcomes the driver supplies to one response event: the result of
res.json() (none means it raised), the result of res.text() (none means it
raised), and the current timestamp. -/
structure ResponseEnv where
  resJson : Option String
  resText : Option String
  now : String
deriving DecidableEq, Repr

/-- The response listener attached by initBrowser: drop the response unless
its url starts with the string http, otherwise decode the body by the
json-then-text-then-null chain and append exactly one entry.  The Except
layer records whether an exception escapes the handler. -/
def onResponse (logs : List NetworkLogEntry) (url : String) (status : Nat)
    (env : ResponseEnv) : Except String (List NetworkLogEntry) :=
  if !(jsStartsWith url "http") then
    Except.ok logs
  else
    Except.ok (logs ++ [⟨url, status,
      match env.resJson with
      | some v => Body.jsonVal v
      | none =>
        match env.resText with
        | some s => Body.textVal s
        | none => Body.null,
      env.now⟩])

/-- Modelled from the spec: the spec-level filter predicate of claim C4 in
its own words, the url is an HTTP or HTTPS URL.  Used only to compare the
spec wording with the filter the code implements. -/
def isHttpOrHttpsUrl (u : String) : Bool :=
  jsStartsWith u "http://" || jsStartsWith u "https://"

/-- True when the state holds a browser handle with identity i. -/
def usesBrowserId (st : SessionState) (i : Nat) : Bool :=
  match st.browser with
  | some b => b.id == i
  | none => false

/-- True when the state holds a page handle with identity i. -/
def usesPageId (st : SessionState) (i : Nat) : Bool :=
  match st.page with
  | some p => p.id == i
  | none => false

/-- The state mentions handle identity i nowhere. -/
def avoids (st : SessionState) (i : Nat) : Bool :=
  !(usesBrowserId st i) && !(usesPageId st i)

/-- Every handle identity in the state is below the freshness counter. -/
def idsBelow (st : SessionState) (n : Nat) : Bool :=
  (match st.browser with
   | some b => decide (b.id < n)
   | none => true) &&
  (match st.page with
   | some p => decide (p.id < n)
   | none => true)

/-- External history events between tool calls: the browser process dies
(its pages close with it), the page closes, or initBrowser runs. -/
inductive Evt where
  | disconnect
  | closePage
  | acquire (env : InitEnv)

/-- One step of the session history. -/
def applyEvt (s : SessionState × Nat) (e : Evt) : SessionState × Nat :=
  match e with
  | Evt.disconnect =>
    ({ s.1 with
        browser := s.1.browser.map fun b => { b with connected := false },
        page := markPageClosed s.1.page }, s.2)
  | Evt.closePage => ({ s.1 with page := markPageClosed s.1.page }, s.2)
  | Evt.acquire env =>
    ((initBrowser s.1 s.2 env).1, (initBrowser s.1 s.2 env).2.1)

/-- Run a list of history events. -/
def runEvts (s : SessionState × Nat) : List Evt → SessionState × Nat
  | [] => s
  | e :: es => runEvts (applyEvt s e) es

/-- An element of the click_element query result as the page execution
context sees it: the DOM type and innerText properties are strings, empty
when effectively absent. -/
structure DomElement where
  tag : String
  type : String
  innerText : String
deriving DecidableEq, Repr

/-- The matcher click_element evaluates in page context:
(e.innerText && e.innerText.includes(k)) || (e.type && e.type === k),
with JavaScript truthiness of a string being nonemptiness. -/
def clickMatches (k : String) (e : DomElement) : Bool :=
  (e.innerText != "" && jsIncludes e.innerText k) ||
  (e.type != "" && e.type == k)

/-- The click_element tool over the queried elements in document order:
click the first match and report it, or click nothing and report not
found.  The first component is the element actually clicked. -/
def click_element (els : List DomElement) (keyword : String) :
    Option DomElement × String :=
  match els.find? (clickMatches keyword) with
  | some e => (some e, "✅ Clicked " ++ keyword)
  | none => (none, "❌ Not Found: " ++ keyword)

/-- Modelled from the spec: the claim C9 matcher in the spec own words,
namely the element text contains the keyword as a case-sensitive substring,
or the type attribute equals the keyword exactly.  Used only to compare the
spec wording with the matcher the code implements. -/
def spec_clickMatches (k : String) (e : DomElement) : Bool :=
  jsIncludes e.innerText k || e.type == k

/-- An element as list_elements reads it: getAttribute results (null as
none), the innerText property, and the value property (none for element
kinds without a value property). -/
structure RawElement where
  tagName : String
  typeAttr : Option String
  placeholderAttr : Option String
  innerText : String
  value : Option String
deriving DecidableEq, Repr

/-- The normalized element snapshot list_elements returns. -/
structure ElementDescriptor where
  tag : String
  type : Option String
  placeholder : Option String
  text : Option String
deriving DecidableEq, Repr

/-- JavaScript x || null applied to a getAttribute result: absent and empty
string both collapse to null. -/
def jsOrNull : Option String → Option String
  | some s => if s == "" then none else some s
  | none => none

/-- JavaScript el.innerText || el.value || null. -/
def jsTextOrValue (innerText : String) (value : Option String) :
    Option String :=
  if innerText != "" then some innerText
  else
    match value with
    | some v => if v != "" then some v else none
    | none => none

/-- The per-element snapshot list_elements builds in page context. -/
def describeElement (el : RawElement) : ElementDescriptor :=
  { tag := el.tagName.toLower
    type := jsOrNull el.typeAttr
    placeholder := jsOrNull el.placeholderAttr
    text := jsTextOrValue el.innerText el.value }

/-- The list_elements tool: one descriptor per queried element, in document
order. -/
def list_elements (els : List RawElement) : List ElementDescriptor :=
  els.map describeElement

/-- The waitUntil modes page.goto accepts. -/
inductive WaitUntil where
  | load
  | domcontentloaded
  | networkidle0
  | networkidle2
deriving DecidableEq, Repr

/-- Options passed to page.goto. -/
structure GotoOpts where
  waitUntil : WaitUntil
  timeout : Nat
deriving DecidableEq, Repr

/-- One text content block of a tool response envelope. -/
structure ContentBlock where
  text : String
deriving DecidableEq, Repr

/-- Outcomes the driver supplies to one visit_page call: the initBrowser
environment and, per goto call, success or the error message. -/
structure VisitEnv where
  init : InitEnv
  goto : String → GotoOpts → Except String Unit

/-- The visit_page tool: acquire the page (the initBrowser await stands
outside the try, so an acquisition error propagates), then await page.goto
with waitUntil networkidle2 and timeout 30000 inside a try that renders
either outcome as one text block.  The third component records the goto
calls issued. -/
def visit_page (st : SessionState) (n : Nat) (env : VisitEnv)
    (url : String) :
    SessionState × Nat × List (String × GotoOpts) ×
      Except BrowserError (List ContentBlock) :=
  match initBrowser st n env.init with
  | (st1, n1, Except.error e) => (st1, n1, [], Except.error e)
  | (st1, n1, Except.ok _) =>
    match env.goto url ⟨WaitUntil.networkidle2, 30000⟩ with
    | Except.ok _ =>
      (st1, n1, [(url, ⟨WaitUntil.networkidle2, 30000⟩)],
        Except.ok [⟨"✅ Visited " ++ url⟩])
    | Except.error msg =>
      (st1, n1, [(url, ⟨WaitUntil.networkidle2, 30000⟩)],
        Except.ok [⟨"❌ Visit failed: " ++ msg⟩])

theorem jsIncludes_iff (s k : String) :
    jsIncludes s k = true ↔ k.toList <:+: s.toList := by
  unfold jsIncludes
  rw [List.any_eq_true]
  constructor
  · rintro ⟨t, ht, hp⟩
    exact List.infix_iff_prefix_suffix.2
      ⟨t, List.isPrefixOf_iff_prefix.1 hp, (List.mem_tails _ _).1 ht⟩
  · intro h
    obtain ⟨t, hpre, hsuf⟩ := List.infix_iff_prefix_suffix.1 h
    exact ⟨t, (List.mem_tails _ _).2 hsuf, List.isPrefixOf_iff_prefix.2 hpre⟩

theorem filter_length_ne_zero {α : Type} (p : α → Bool) (l : List α) :
    (l.filter p).length ≠ 0 ↔ ∃ e ∈ l, p e = true := by
  rw [Ne, List.length_eq_zero, List.filter_eq_nil_iff]
  push_neg
  simp

/-- Claim C1: check_network_request with keyword k serializes the ENTIRE log
(matching and non-matching entries alike) exactly when some entry has k as a
substring of its url, and otherwise returns the not-found message,
serializing zero entries. -/
theorem check_network_request_full_log (logs : List NetworkLogEntry)
    (k : String) :
    (check_network_request logs k = CheckResult.logDump logs ↔
      ∃ e ∈ logs, k.toList <:+: e.url.toList) ∧
    (check_network_request logs k =
        CheckResult.notFound ("No request found for " ++ k) ↔
      ¬ ∃ e ∈ logs, k.toList <:+: e.url.toList) := by
  have hmatch : (∃ e ∈ logs, jsIncludes e.url k = true) ↔
      ∃ e ∈ logs, k.toList <:+: e.url.toList := by
    constructor
    · rintro ⟨e, he, hi⟩
      exact ⟨e, he, (jsIncludes_iff _ _).1 hi⟩
    · rintro ⟨e, he, hi⟩
      exact ⟨e, he, (jsIncludes_iff _ _).2 hi⟩
  unfold check_network_request
  split
  next h =>
    have hex := hmatch.1 ((filter_length_ne_zero _ _).1 h)
    constructor
    · exact ⟨fun _ => hex, fun _ => rfl⟩
    · constructor
      · intro hEq
        exact CheckResult.noConfusion hEq
      · intro hn
        exact absurd hex hn
  next h =>
    have hno : ¬ ∃ e ∈ logs, k.toList <:+: e.url.toList := by
      intro hex
      exact h ((filter_length_ne_zero _ _).2 (hmatch.2 hex))
    constructor
    · constructor
      · intro hEq
        exact CheckResult.noConfusion hEq
      · intro hex
        exact absurd hex hno
    · exact ⟨fun _ => hno, fun _ => rfl⟩

/-- Claim C2 counterexample: with a disconnected browser handle and a close
step that raises, initBrowser propagates the close error instead of
swallowing it, no relaunch happens in that call (the resulting state holds
no browser), and so the acquire does not succeed. -/
theorem initBrowser_close_error_cex :
    (initBrowser ⟨some ⟨0, false⟩, none, []⟩ 1 ⟨true, true, true⟩).2.2 =
      Except.error BrowserError.closeErr ∧
    (initBrowser ⟨some ⟨0, false⟩, none, []⟩ 1 ⟨true, true, true⟩).1.browser =
      none := by
  exact ⟨rfl, rfl⟩

/-- Claim C2 (amended): when the browser handle is present but disconnected
and browser.close() raises, initBrowser does not swallow the close error:
both references are cleared, the close error propagates to the caller, and
no relaunch happens within that call. -/
theorem initBrowser_close_error (st : SessionState) (n : Nat)
    (env : InitEnv) (b : Browser)
    (hb : st.browser = some b) (hc : b.connected = false)
    (hf : env.closeFails = true) :
    initBrowser st n env =
      ({ browser := none, page := none, logs := st.logs }, n,
        Except.error BrowserError.closeErr) := by
  simp [initBrowser, hb, hc, hf]

/-- Witness for the amended claim C2 at a concrete disconnected state. -/
theorem initBrowser_close_error_witness :
    initBrowser ⟨some ⟨5, false⟩, some ⟨6, false, true⟩, []⟩ 7
        ⟨true, false, false⟩ =
      ({ browser := none, page := none, logs := [] }, 7,
        Except.error BrowserError.closeErr) :=
  initBrowser_close_error _ 7 _ ⟨5, false⟩ rfl rfl rfl

/-- Claim C5: whenever initBrowser fails, the error itself is the result
handed to the caller and both the browser reference and the page reference
are cleared, so no partially initialized session state survives the call. -/
theorem initBrowser_failure_clears (st : SessionState) (n : Nat)
    (env : InitEnv) (e : BrowserError)
    (h : (initBrowser st n env).2.2 = Except.error e) :
    (initBrowser st n env).1.browser = none ∧
    (initBrowser st n env).1.page = none := by
  rcases st with ⟨br, pg, lg⟩
  rcases env with ⟨cf, lo, npo⟩
  rcases br with _ | ⟨bid, bconn⟩ <;>
    rcases pg with _ | ⟨pid, pcl, pl⟩ <;>
    cases cf <;> cases lo <;> cases npo <;>
    simp_all [initBrowser, initPage, newPageStep, markPageClosed] <;>
    (try cases bconn) <;> (try cases pcl) <;> simp_all

/-- Witness for claim C5: a failing launch from the empty state. -/
theorem initBrowser_failure_clears_witness :
    (initBrowser ⟨none, none, []⟩ 0 ⟨false, false, true⟩).1.browser = none ∧
    (initBrowser ⟨none, none, []⟩ 0 ⟨false, false, true⟩).1.page = none :=
  initBrowser_failure_clears ⟨none, none, []⟩ 0 ⟨false, false, true⟩
    BrowserError.launchErr rfl

/-- Claim C6: on a live session (connected browser, open page) initBrowser
returns the same page handle and leaves the browser reference, the page
reference, the network log and the freshness counter unchanged. -/
theorem initBrowser_idempotent (st : SessionState) (n : Nat) (env : InitEnv)
    (b : Browser) (p : Page)
    (hb : st.browser = some b) (hc : b.connected = true)
    (hp : st.page = some p) (ho : p.closed = false) :
    initBrowser st n env = (st, n, Except.ok p) := by
  simp [initBrowser, initPage, hb, hc, hp, ho]

/-- Witness for claim C6 at a concrete live session. -/
theorem initBrowser_idempotent_witness :
    initBrowser ⟨some ⟨0, true⟩, some ⟨1, false, true⟩,
        [⟨"https://a", 200, Body.null, "t"⟩]⟩ 2 ⟨false, true, true⟩ =
      (⟨some ⟨0, true⟩, some ⟨1, false, true⟩,
        [⟨"https://a", 200, Body.null, "t"⟩]⟩, 2,
        Except.ok ⟨1, false, true⟩) :=
  initBrowser_idempotent _ 2 _ ⟨0, true⟩ ⟨1, false, true⟩ rfl rfl rfl rfl

/-- Claim C4 counterexample: the url httpfake://x has neither the http nor
the https scheme, yet the response listener records it, because the code
filter only tests that the url starts with the string http. -/
theorem onResponse_scheme_cex :
    isHttpOrHttpsUrl "httpfake://x" = false ∧
    onResponse [] "httpfake://x" 200 ⟨none, none, "t0"⟩ =
      Except.ok [⟨"httpfake://x", 200, Body.null, "t0"⟩] := by
  constructor
  · decide
  · rfl

/-- Claim C4 (amended): the response listener appends exactly one entry for
a response precisely when its url starts with the string http (this keeps
every http and https url and drops data and internal schemes, but also
keeps any other scheme beginning with http); any other response leaves the
log unchanged, and the handler returns normally in both cases. -/
theorem onResponse_filter (logs : List NetworkLogEntry) (url : String)
    (status : Nat) (env : ResponseEnv) :
    (jsStartsWith url "http" = true →
      ∃ e, onResponse logs url status env = Except.ok (logs ++ [e]) ∧
        e.url = url ∧ e.status = status) ∧
    (jsStartsWith url "http" = false →
      onResponse logs url status env = Except.ok logs) := by
  constructor
  · intro h
    refine ⟨⟨url, status,
      (match env.resJson with
       | some v => Body.jsonVal v
       | none =>
         match env.resText with
         | some s => Body.textVal s
         | none => Body.null), env.now⟩, ?_, rfl, rfl⟩
    simp [onResponse, h]
  · intro h
    simp [onResponse, h]

/-- Witness for the amended claim C4: a retained https response and a
discarded data response, at concrete inputs. -/
theorem onResponse_filter_witness :
    (∃ e, onResponse [] "https://a" 200 ⟨some "v", none, "t1"⟩ =
        Except.ok ([] ++ [e]) ∧ e.url = "https://a" ∧ e.status = 200) ∧
    onResponse [] "data:text/html" 200 ⟨none, none, "t1"⟩ =
      Except.ok [] :=
  ⟨(onResponse_filter [] "https://a" 200 ⟨some "v", none, "t1"⟩).1
      (by decide),
    (onResponse_filter [] "data:text/html" 200 ⟨none, none, "t1"⟩).2
      (by decide)⟩

/-- Claim C7: for every retained response the body is decoded by the fixed
fallback chain, first the structured decode, on its failure the raw-text
decode, on its failure null; a log entry is appended in all three cases and
no decode failure escapes the handler. -/
theorem onResponse_decode_chain (logs : List NetworkLogEntry) (url : String)
    (status : Nat) (env : ResponseEnv)
    (h : jsStartsWith url "http" = true) :
    (∃ l2, onResponse logs url status env = Except.ok l2 ∧
      l2.length = logs.length + 1) ∧
    (∀ v, env.resJson = some v →
      onResponse logs url status env =
        Except.ok (logs ++ [⟨url, status, Body.jsonVal v, env.now⟩])) ∧
    (∀ s, env.resJson = none → env.resText = some s →
      onResponse logs url status env =
        Except.ok (logs ++ [⟨url, status, Body.textVal s, env.now⟩])) ∧
    (env.resJson = none → env.resText = none →
      onResponse logs url status env =
        Except.ok (logs ++ [⟨url, status, Body.null, env.now⟩])) := by
  refine ⟨⟨logs ++ [⟨url, status,
      (match env.resJson with
       | some v => Body.jsonVal v
       | none =>
         match env.resText with
         | some s => Body.textVal s
         | none => Body.null), env.now⟩], by simp [onResponse, h], by simp⟩,
    ?_, ?_, ?_⟩
  · intro v hv
    simp [onResponse, h, hv]
  · intro s h1 h2
    simp [onResponse, h, h1, h2]
  · intro h1 h2
    simp [onResponse, h, h1, h2]

/-- Witness for claim C7: a failed structured decode falling back to the
raw-text decode, at concrete inputs. -/
theorem onResponse_decode_chain_witness :
    onResponse [] "http://a" 500 ⟨none, some "raw", "t2"⟩ =
      Except.ok ([] ++ [⟨"http://a", 500, Body.textVal "raw", "t2"⟩]) :=
  (onResponse_decode_chain [] "http://a" 500 ⟨none, some "raw", "t2"⟩
    (by decide)).2.2.1 "raw" rfl rfl

theorem find?_append_first {α : Type} (p : α → Bool) (l₁ l₂ : List α)
    (e : α) (hp : p e = true) (hl : ∀ x ∈ l₁, p x = false) :
    (l₁ ++ e :: l₂).find? p = some e := by
  induction l₁ with
  | nil => simp [List.find?_cons, hp]
  | cons a as ih =>
    have ha := hl a (by simp)
    simp only [List.cons_append, List.find?_cons, ha]
    exact ih fun x hx => hl x (by simp [hx])

/-- Claim C9 counterexample: take one anchor whose text is empty and the
empty keyword.  The matcher of the claim holds, since the empty string
contains the empty string as a (case-sensitive) substring, yet click_element
clicks nothing and reports not found, because the code guards both clauses
by JavaScript truthiness and the empty string is falsy. -/
theorem click_element_cex :
    spec_clickMatches "" ⟨"a", "", ""⟩ = true ∧
    click_element [⟨"a", "", ""⟩] "" = (none, "❌ Not Found: " ++ "") := by
  constructor
  · decide
  · rfl

/-- Claim C9 (amended): click_element clicks exactly the first element in
document order, among the queried anchors, buttons and submit inputs, whose
NONEMPTY text contains the keyword as a case-sensitive substring or whose
NONEMPTY type equals the keyword exactly, and reports it found; when no
element qualifies under that matcher, nothing is clicked and the not-found
text is returned.  Several qualifying elements resolve silently to the
first. -/
theorem click_element_first_match (els : List DomElement) (k : String) :
    ((∀ e ∈ els, clickMatches k e = false) →
      click_element els k = (none, "❌ Not Found: " ++ k)) ∧
    (∀ l₁ e l₂, els = l₁ ++ e :: l₂ → clickMatches k e = true →
      (∀ x ∈ l₁, clickMatches k x = false) →
      click_element els k = (some e, "✅ Clicked " ++ k)) := by
  constructor
  · intro h
    have hn : els.find? (clickMatches k) = none :=
      List.find?_eq_none.2 fun x hx => by simp [h x hx]
    simp [click_element, hn]
  · rintro l₁ e l₂ rfl hp hl
    have hs : (l₁ ++ e :: l₂).find? (clickMatches k) = some e :=
      find?_append_first _ _ _ _ hp hl
    simp [click_element, hs]

/-- Witness for the amended claim C9: a matching second element behind one
non-matching element, at concrete inputs. -/
theorem click_element_first_match_witness :
    click_element [⟨"a", "", "About"⟩, ⟨"button", "submit", "Send now"⟩]
        "Send" =
      (some ⟨"button", "submit", "Send now"⟩, "✅ Clicked " ++ "Send") :=
  (click_element_first_match
      [⟨"a", "", "About"⟩, ⟨"button", "submit", "Send now"⟩] "Send").2
    [⟨"a", "", "About"⟩] ⟨"button", "submit", "Send now"⟩ [] rfl (by decide)
    (by decide)

/-- Claim C10: every descriptor list_elements returns normalizes an absent
or empty attribute to null for the type and placeholder fields, derives the
text field as innerText when that is nonempty, else the value property when
that is present and nonempty, else null, and no field is ever the empty
string. -/
theorem list_elements_normalizes (els : List RawElement)
    (el : RawElement) (hmem : el ∈ els) :
    describeElement el ∈ list_elements els ∧
    ((el.typeAttr = none ∨ el.typeAttr = some "") →
      (describeElement el).type = none) ∧
    (∀ s, el.typeAttr = some s → s ≠ "" →
      (describeElement el).type = some s) ∧
    ((el.placeholderAttr = none ∨ el.placeholderAttr = some "") →
      (describeElement el).placeholder = none) ∧
    (∀ s, el.placeholderAttr = some s → s ≠ "" →
      (describeElement el).placeholder = some s) ∧
    (el.innerText ≠ "" → (describeElement el).text = some el.innerText) ∧
    (∀ v, el.innerText = "" → el.value = some v → v ≠ "" →
      (describeElement el).text = some v) ∧
    (el.innerText = "" → (el.value = none ∨ el.value = some "") →
      (describeElement el).text = none) ∧
    (describeElement el).type ≠ some "" ∧
    (describeElement el).placeholder ≠ some "" ∧
    (describeElement el).text ≠ some "" := by
  refine ⟨List.mem_map_of_mem describeElement hmem, ?_, ?_, ?_, ?_, ?_, ?_,
    ?_, ?_, ?_, ?_⟩
  · rintro (h | h) <;> simp [describeElement, jsOrNull, h]
  · intro s hs hne
    simp [describeElement, jsOrNull, hs, hne]
  · rintro (h | h) <;> simp [describeElement, jsOrNull, h]
  · intro s hs hne
    simp [describeElement, jsOrNull, hs, hne]
  · intro h
    simp [describeElement, jsTextOrValue, h]
  · intro v h hv hne
    simp [describeElement, jsTextOrValue, h, hv, hne]
  · rintro h (hv | hv) <;> simp [describeElement, jsTextOrValue, h, hv]
  · rcases hta : el.typeAttr with _ | s
    · simp [describeElement, jsOrNull, hta]
    · by_cases hse : s = "" <;> simp [describeElement, jsOrNull, hta, hse]
  · rcases hta : el.placeholderAttr with _ | s
    · simp [describeElement, jsOrNull, hta]
    · by_cases hse : s = "" <;> simp [describeElement, jsOrNull, hta, hse]
  · by_cases hit : el.innerText = ""
    · rcases hv : el.value with _ | v
      · simp [describeElement, jsTextOrValue, hit, hv]
      · by_cases hve : v = "" <;>
          simp [describeElement, jsTextOrValue, hit, hv, hve]
    · simp [describeElement, jsTextOrValue, hit]

/-- Witness for claim C10: an uppercase input tag with an empty type
attribute, a placeholder, empty innerText and a nonempty value property, at
concrete inputs. -/
theorem list_elements_normalizes_witness :
    (describeElement ⟨"INPUT", some "", some "Email", "", some "hi"⟩).text =
        some "hi" ∧
    (describeElement ⟨"INPUT", some "", some "Email", "", some "hi"⟩).type =
        none ∧
    describeElement ⟨"INPUT", some "", some "Email", "", some "hi"⟩ ∈
      list_elements [⟨"INPUT", some "", some "Email", "", some "hi"⟩] := by
  obtain ⟨hmem2, htN, htS, hpN, hpS, ht1, ht2, ht3, hx⟩ :=
    list_elements_normalizes
      [⟨"INPUT", some "", some "Email", "", some "hi"⟩]
      ⟨"INPUT", some "", some "Email", "", some "hi"⟩ (by simp)
  exact ⟨ht2 "hi" rfl rfl (by decide), htN (Or.inr rfl), hmem2⟩

/-- Claim C8: once the session page is acquired, visit_page issues exactly
one goto call with waitUntil networkidle2 and a 30000 millisecond timeout,
and for every url it returns normally with exactly one text block, the
success text when the load completes and the failure text embedding the
underlying error message when it does not; the navigation outcome never
changes the session state, which stays the live state the acquire
produced. -/
theorem visit_page_contract (st : SessionState) (n : Nat) (env : VisitEnv)
    (url : String) (st1 : SessionState) (n1 : Nat) (p : Page)
    (hinit : initBrowser st n env.init = (st1, n1, Except.ok p)) :
    ∃ blocks,
      visit_page st n env url =
        (st1, n1, [(url, ⟨WaitUntil.networkidle2, 30000⟩)],
          Except.ok blocks) ∧
      blocks.length = 1 ∧
      (env.goto url ⟨WaitUntil.networkidle2, 30000⟩ = Except.ok () →
        blocks = [⟨"✅ Visited " ++ url⟩]) ∧
      (∀ msg, env.goto url ⟨WaitUntil.networkidle2, 30000⟩ =
          Except.error msg →
        blocks = [⟨"❌ Visit failed: " ++ msg⟩]) := by
  rcases hg : env.goto url ⟨WaitUntil.networkidle2, 30000⟩ with msg | u
  · refine ⟨[⟨"❌ Visit failed: " ++ msg⟩], ?_, rfl, ?_, ?_⟩
    · simp [visit_page, hinit, hg]
    · intro h
      exact Except.noConfusion h
    · intro m hm
      obtain rfl : msg = m := Except.error.inj hm
      rfl
  · refine ⟨[⟨"✅ Visited " ++ url⟩], ?_, rfl, fun _ => rfl, ?_⟩
    · simp [visit_page, hinit, hg]
    · intro m hm
      exact Except.noConfusion hm

/-- Witness for claim C8: a fresh session whose navigation fails with a
network error message, at concrete inputs. -/
theorem visit_page_contract_witness :
    ∃ blocks,
      visit_page ⟨none, none, []⟩ 0
          ⟨⟨false, true, true⟩, fun _ _ => Except.error "net::ERR_FAILED"⟩
          "https://a" =
        (⟨some ⟨0, true⟩, some ⟨1, false, true⟩, []⟩, 2,
          [("https://a", ⟨WaitUntil.networkidle2, 30000⟩)],
          Except.ok blocks) ∧
      blocks.length = 1 ∧
      ((fun (_ : String) (_ : GotoOpts) => Except.error "net::ERR_FAILED" :
          String → GotoOpts → Except String Unit) "https://a"
          ⟨WaitUntil.networkidle2, 30000⟩ = Except.ok () →
        blocks = [⟨"✅ Visited " ++ "https://a"⟩]) ∧
      (∀ msg, (fun (_ : String) (_ : GotoOpts) =>
          Except.error "net::ERR_FAILED" :
          String → GotoOpts → Except String Unit) "https://a"
          ⟨WaitUntil.networkidle2, 30000⟩ = Except.error msg →
        blocks = [⟨"❌ Visit failed: " ++ msg⟩]) :=
  visit_page_contract ⟨none, none, []⟩ 0
    ⟨⟨false, true, true⟩, fun _ _ => Except.error "net::ERR_FAILED"⟩
    "https://a" ⟨some ⟨0, true⟩, some ⟨1, false, true⟩, []⟩ 2
    ⟨1, false, true⟩ rfl

theorem initBrowser_inv (st : SessionState) (n : Nat) (env : InitEnv)
    (i : Nat) (hin : idsBelow st n = true) (hlt : i < n)
    (hav : avoids st i = true) :
    idsBelow (initBrowser st n env).1 (initBrowser st n env).2.1 = true ∧
    i < (initBrowser st n env).2.1 ∧
    avoids (initBrowser st n env).1 i = true := by
  rcases st with ⟨br, pg, lg⟩
  rcases env with ⟨cf, lo, npo⟩
  rcases br with _ | ⟨bid, bconn⟩ <;>
    rcases pg with _ | ⟨pid, pcl, pl⟩ <;>
    cases cf <;> cases lo <;> cases npo <;>
    (try cases bconn) <;> (try cases pcl) <;>
    simp_all [initBrowser, initPage, newPageStep, markPageClosed, idsBelow,
      avoids, usesBrowserId, usesPageId] <;>
    omega

theorem applyEvt_inv (s : SessionState × Nat) (e : Evt) (i : Nat)
    (hin : idsBelow s.1 s.2 = true) (hlt : i < s.2)
    (hav : avoids s.1 i = true) :
    idsBelow (applyEvt s e).1 (applyEvt s e).2 = true ∧
    i < (applyEvt s e).2 ∧
    avoids (applyEvt s e).1 i = true := by
  rcases s with ⟨⟨br, pg, lg⟩, m⟩
  cases e with
  | disconnect =>
    rcases br with _ | b <;> rcases pg with _ | p <;>
      simp_all [applyEvt, markPageClosed, idsBelow, avoids, usesBrowserId,
        usesPageId]
  | closePage =>
    rcases pg with _ | p <;>
      simp_all [applyEvt, markPageClosed, idsBelow, avoids, usesBrowserId,
        usesPageId]
  | acquire env =>
    exact initBrowser_inv ⟨br, pg, lg⟩ m env i hin hlt hav

theorem runEvts_inv (evts : List Evt) (s : SessionState × Nat) (i : Nat)
    (hin : idsBelow s.1 s.2 = true) (hlt : i < s.2)
    (hav : avoids s.1 i = true) :
    idsBelow (runEvts s evts).1 (runEvts s evts).2 = true ∧
    i < (runEvts s evts).2 ∧
    avoids (runEvts s evts).1 i = true := by
  induction evts generalizing s with
  | nil => exact ⟨hin, hlt, hav⟩
  | cons e es ih =>
    obtain ⟨h1, h2, h3⟩ := applyEvt_inv s e i hin hlt hav
    exact ih (applyEvt s e) h1 h2 h3

/-- Claim C3: when the browser reports disconnected, the next successful
initBrowser returns a state holding a fresh browser handle and a fresh page
handle (identities differing from the old ones) together with the new page;
and along every subsequent history of disconnects, page closures and
acquires, no state ever holds the old browser identity or the old page
identity again. -/
theorem initBrowser_recovery (st : SessionState) (n : Nat) (env : InitEnv)
    (b : Browser)
    (hb : st.browser = some b) (hconn : b.connected = false)
    (hcf : env.closeFails = false) (hlo : env.launchOk = true)
    (hnp : env.newPageOk = true) (hin : idsBelow st n = true) :
    initBrowser st n env =
      (⟨some ⟨n, true⟩, some ⟨n + 1, false, true⟩, st.logs⟩, n + 2,
        Except.ok ⟨n + 1, false, true⟩) ∧
    b.id ≠ n ∧
    (∀ p, st.page = some p → p.id ≠ n + 1) ∧
    (∀ evts,
      avoids (runEvts (⟨some ⟨n, true⟩, some ⟨n + 1, false, true⟩,
        st.logs⟩, n + 2) evts).1 b.id = true) ∧
    (∀ p, st.page = some p → ∀ evts,
      avoids (runEvts (⟨some ⟨n, true⟩, some ⟨n + 1, false, true⟩,
        st.logs⟩, n + 2) evts).1 p.id = true) := by
  rcases st with ⟨br, pg, lg⟩
  rcases env with ⟨cf, lo, npo⟩
  simp only at hb hcf hlo hnp
  subst hcf hlo hnp
  subst hb
  rcases b with ⟨bid, bconn⟩
  simp only at hconn
  subst hconn
  have hbid : bid < n := by
    rcases pg with _ | p <;> simp_all [idsBelow]
  refine ⟨?_, by simp only; omega, ?_, ?_, ?_⟩
  · rcases pg with _ | ⟨pid, pcl, pl⟩ <;> rfl
  · rintro p hp
    rcases pg with _ | ⟨pid, pcl, pl⟩
    · exact absurd hp (by simp)
    · obtain rfl : (⟨pid, pcl, pl⟩ : Page) = p := by simpa using hp
      have : pid < n := by simp_all [idsBelow]
      simp only
      omega
  · intro evts
    refine (runEvts_inv evts _ bid ?_ (by omega) ?_).2.2
    · simp [idsBelow]
    · simp [avoids, usesBrowserId, usesPageId]
      omega
  · rintro p hp evts
    rcases pg with _ | ⟨pid, pcl, pl⟩
    · exact absurd hp (by simp)
    · obtain rfl : (⟨pid, pcl, pl⟩ : Page) = p := by simpa using hp
      have hpidlt : pid < n := by simp_all [idsBelow]
      refine (runEvts_inv evts _ pid ?_ (by omega) ?_).2.2
      · simp [idsBelow]
      · simp [avoids, usesBrowserId, usesPageId]
        omega

/-- Witness for claim C3: a disconnected browser holding handle identity 0
and a page with identity 1; the next acquire succeeds with fresh handles 2
and 3, and the old identities never reappear. -/
theorem initBrowser_recovery_witness :
    initBrowser ⟨some ⟨0, false⟩, some ⟨1, true, true⟩, []⟩ 2
        ⟨false, true, true⟩ =
      (⟨some ⟨2, true⟩, some ⟨3, false, true⟩, []⟩, 4,
        Except.ok ⟨3, false, true⟩) ∧
    (⟨0, false⟩ : Browser).id ≠ 2 ∧
    (∀ p, (some ⟨1, true, true⟩ : Option Page) = some p → p.id ≠ 3) ∧
    (∀ evts,
      avoids (runEvts (⟨some ⟨2, true⟩, some ⟨3, false, true⟩, []⟩, 4)
        evts).1 (⟨0, false⟩ : Browser).id = true) ∧
    (∀ p, (some ⟨1, true, true⟩ : Option Page) = some p → ∀ evts,
      avoids (runEvts (⟨some ⟨2, true⟩, some ⟨3, false, true⟩, []⟩, 4)
        evts).1 p.id = true) :=
  initBrowser_recovery ⟨some ⟨0, false⟩, some ⟨1, true, true⟩, []⟩ 2
    ⟨false, true, true⟩ ⟨0, false⟩ rfl rfl rfl rfl rfl rfl
